import Mathlib

/-!
Shallow embedding of the Etavideo (SocialVid) client: a TikTok-style
browser app consisting of an App shell with posts and user-profile state
persisted to browser local storage, a scrollable video feed, per-card
playback and like state, a profile page with a follow button, and a thin
proxy to the Gemini generate-content API.

Each definition below is translated from the corresponding TypeScript
source (src/types.ts, src/unnamed/part_000, src/unnamed/part_001,
src/unnamed/part_002, src/components/VideoFeed.tsx,
src/components/VideoCard.tsx, src/components/ProfilePage.tsx,
src/services/geminiService.ts).  JavaScript numbers that only ever hold
integers (timestamps, like counts, follower counts) are modelled as Int;
DOM scroll offsets, which may be fractional, are modelled as Rat.
Fallible operations (JSON.parse, the Gemini call) are modelled with
Except; browser-supplied nondeterminism (crypto.randomUUID, Date.now,
Math.random, autoplay success) is passed in as explicit parameters.
-/

namespace SocialVid

/-- JavaScript truthiness of a string: falsy exactly when empty
(used for `storedPosts ? ... : ...` and `if (title) ...`). -/
def jsStrTruthy (s : String) : Bool := s ≠ ""

/-- JavaScript `Math.round` on an exact rational: round half toward
positive infinity, `Math.round(x) = floor(x + 0.5)`. -/
def jsRound (x : ℚ) : ℤ := ⌊x + 1/2⌋

/-- JavaScript `String.prototype.includes`: `strIncludes hay needle` is
true when `needle` occurs as a contiguous substring of `hay`. -/
def strIncludes (hay needle : String) : Bool :=
  (List.range (hay.toList.length + 1)).any fun i =>
    needle.toList.isPrefixOf (hay.toList.drop i)

/-- `Comment` from src/types.ts. -/
structure Comment where
  id : String
  userId : String
  userName : String
  text : String
  timestamp : ℤ
deriving DecidableEq

/-- `Post` from src/types.ts (first version, with the optional
`aiSummary` field; the second version simply omits that field). -/
structure Post where
  id : String
  videoUrl : String
  thumbnailUrl : String
  caption : String
  timestamp : ℤ
  likes : ℤ
  comments : List Comment
  userName : String
  userAvatar : String
  aiSummary : Option String
deriving DecidableEq

/-- `UserProfile` from src/types.ts. -/
structure UserProfile where
  id : String
  name : String
  bio : String
  avatarUrl : String
  followers : ℤ
deriving DecidableEq

/-- `Partial<UserProfile>` as used by `updateUserProfile`: every field
optional; an absent field is `none`. -/
structure PartialUserProfile where
  id : Option String
  name : Option String
  bio : Option String
  avatarUrl : Option String
  followers : Option ℤ
deriving DecidableEq

/-- The object spread `{ ...prevProfile, ...updatedProfile }` inside
`updateUserProfile` (src/unnamed/part_001): a field present in the
partial update wins, an absent field keeps its previous value. -/
def mergeUserProfile (prevProfile : UserProfile) (updatedProfile : PartialUserProfile) :
    UserProfile where
  id := updatedProfile.id.getD prevProfile.id
  name := updatedProfile.name.getD prevProfile.name
  bio := updatedProfile.bio.getD prevProfile.bio
  avatarUrl := updatedProfile.avatarUrl.getD prevProfile.avatarUrl
  followers := updatedProfile.followers.getD prevProfile.followers

/-! ## VideoCard like state (src/components/VideoCard.tsx, handleLikeClick) -/

/-- The like-related component state of one `VideoCard`:
`isLiked` starts false, `likeCount` starts at `post.likes`. -/
structure LikeState where
  isLiked : Bool
  likeCount : ℤ
deriving DecidableEq

/-- Initial like state of a card for a post with `likes` likes. -/
def initLikeState (likes : ℤ) : LikeState := { isLiked := false, likeCount := likes }

/-- `handleLikeClick` from src/components/VideoCard.tsx: toggle `isLiked`;
when it was set, decrement the count, otherwise increment it. -/
def handleLikeClick (s : LikeState) : LikeState :=
  if s.isLiked then { isLiked := false, likeCount := s.likeCount - 1 }
  else { isLiked := true, likeCount := s.likeCount + 1 }

/-! ## Active-video detection (src/components/VideoFeed.tsx and src/unnamed/part_002) -/

/-- `handleScroll` in src/components/VideoFeed.tsx:
`newActiveIndex = Math.round(scrollTop / clientHeight)`, with no
clamping before it is stored in `activeVideoIndex`. -/
def newActiveIndexFeedTsx (scrollTop clientHeight : ℚ) : ℤ :=
  jsRound (scrollTop / clientHeight)

/-- `handleScroll` in src/unnamed/part_002, rounding step:
`newActiveIndex = Math.round((scrollTop + clientHeight / 2) / clientHeight)`. -/
def newActiveIndexPart002 (scrollTop clientHeight : ℚ) : ℤ :=
  jsRound ((scrollTop + clientHeight / 2) / clientHeight)

/-- `handleScroll` in src/unnamed/part_002, clamping step:
`clampedIndex = Math.max(0, Math.min(newActiveIndex, posts.length - 1))`. -/
def clampedActiveIndex (scrollTop clientHeight : ℚ) (numPosts : ℕ) : ℤ :=
  max 0 (min (newActiveIndexPart002 scrollTop clientHeight) ((numPosts : ℤ) - 1))

/-! ## VideoCard play/pause lifecycle (second component version in
src/components/VideoCard.tsx, the one with mute support) -/

/-- The playback-related state of one `VideoCard` together with the DOM
video element it controls: `isPlaying` and `showPlayIcon` are React
state, `videoPlaying` is whether the underlying video element is
actually playing. -/
structure CardState where
  isPlaying : Bool
  showPlayIcon : Bool
  videoPlaying : Bool
deriving DecidableEq

/-- The `React.useEffect` on `[isActive, isMuted]` in
src/components/VideoCard.tsx (second version): when active, attempt
`play()` — on success set playing, on failure (`playOk = false`, e.g.
an autoplay-policy rejection) pause and show the play icon; when
inactive, `pause()` and clear `isPlaying`. -/
def runIsActiveEffect (isActive playOk : Bool) (_s : CardState) : CardState :=
  if isActive then
    if playOk then { isPlaying := true, showPlayIcon := false, videoPlaying := true }
    else { isPlaying := false, showPlayIcon := true, videoPlaying := false }
  else { isPlaying := false, showPlayIcon := true, videoPlaying := false }

/-- `togglePlay` from src/components/VideoCard.tsx (second version):
when playing, pause; when not playing, attempt `play()` only if the
card is active (`playOk` tells whether the play promise resolves). -/
def togglePlay (isActive playOk : Bool) (s : CardState) : CardState :=
  if s.isPlaying then { isPlaying := false, showPlayIcon := true, videoPlaying := false }
  else if isActive then
    if playOk then { isPlaying := true, showPlayIcon := false, videoPlaying := true }
    else { isPlaying := false, showPlayIcon := true, videoPlaying := false }
  else s

/-! ## Gemini proxy (src/services/geminiService.ts) -/

/-- Outcome of the `ai.models.generateContent` call observed by the
`try` block: either a response whose `.text` is a possibly absent
string, or a thrown error whose `.message` is possibly absent. -/
inductive ApiOutcome where
  | success (text : Option String)
  | failure (message : Option String)
deriving DecidableEq

/-- What a proxy function throws: the custom `GeminiApiKeyError`, or
the original error re-thrown unchanged (identified by its message). -/
inductive GeminiError where
  | apiKeyError (message : String)
  | other (message : Option String)
deriving DecidableEq

/-- The API-key test applied to the caught error in each proxy
function: `error.message?.includes("Requested entity was not found.")
|| error.message?.includes("API key not valid")`. -/
def isApiKeyErrorMessage (message : Option String) : Bool :=
  match message with
  | some m =>
      strIncludes m "Requested entity was not found." ||
        strIncludes m "API key not valid"
  | none => false

/-- Message of the `GeminiApiKeyError` thrown by `generateVideoTitle`
and `generateVideoCaption`. -/
def apiKeyErrorProMessage : String :=
  "É necessário selecionar uma API Key paga para usar este recurso avançado (gemini-3-pro-image-preview)."

/-- Message of the `GeminiApiKeyError` thrown by `generateVideoSummary`. -/
def apiKeyErrorFlashMessage : String :=
  "É necessário selecionar uma API Key paga para usar este recurso avançado (gemini-2.5-flash)."

/-- Shared shape of the three proxy functions in
src/services/geminiService.ts: on success take `response.text?.trim()`
and return it when truthy, `null` otherwise; on a thrown error, throw
`GeminiApiKeyError` when the message matches the API-key test, and
re-throw the original error otherwise. -/
def geminiProxy (keyErrorMessage : String) (outcome : ApiOutcome) :
    Except GeminiError (Option String) :=
  match outcome with
  | .success text =>
      match text.map String.trim with
      | some t => if jsStrTruthy t then .ok (some t) else .ok none
      | none => .ok none
  | .failure message =>
      if isApiKeyErrorMessage message then .error (.apiKeyError keyErrorMessage)
      else .error (.other message)

/-- `generateVideoTitle` from src/services/geminiService.ts, as a
function of the observed API outcome. -/
def generateVideoTitle (outcome : ApiOutcome) : Except GeminiError (Option String) :=
  geminiProxy apiKeyErrorProMessage outcome

/-- `generateVideoCaption` from src/services/geminiService.ts. -/
def generateVideoCaption (outcome : ApiOutcome) : Except GeminiError (Option String) :=
  geminiProxy apiKeyErrorProMessage outcome

/-- `generateVideoSummary` from src/services/geminiService.ts. -/
def generateVideoSummary (outcome : ApiOutcome) : Except GeminiError (Option String) :=
  geminiProxy apiKeyErrorFlashMessage outcome

/-! ## Post creation (handlePost in src/unnamed/part_001) -/

/-- The argument of `onPost`:
`Omit<Post, 'id' | 'timestamp' | 'likes' | 'comments' | 'userName' | 'userAvatar'>`. -/
structure NewPostData where
  videoUrl : String
  thumbnailUrl : String
  caption : String
deriving DecidableEq

/-- Browser-supplied nondeterminism consumed by one `handlePost` call:
`crypto.randomUUID()`, `Date.now()`, `Math.floor(Math.random() * 100)`. -/
structure PostEnv where
  freshId : String
  now : ℤ
  randomLikes : ℤ
deriving DecidableEq

/-- The `newPost` object literal built by `handlePost`
(src/unnamed/part_001): the uploaded data spread together with a fresh
id, the current time, random likes, no comments, and the current user
profile name and avatar. -/
def mkNewPost (env : PostEnv) (profile : UserProfile) (data : NewPostData) : Post where
  id := env.freshId
  videoUrl := data.videoUrl
  thumbnailUrl := data.thumbnailUrl
  caption := data.caption
  timestamp := env.now
  likes := env.randomLikes
  comments := []
  userName := profile.name
  userAvatar := profile.avatarUrl
  aiSummary := none

/-- `handlePost` from src/unnamed/part_001, restricted to its effect on
the posts list: `setPosts((prevPosts) => [...prevPosts, newPost])`. -/
def handlePost (env : PostEnv) (profile : UserProfile) (data : NewPostData)
    (prevPosts : List Post) : List Post :=
  prevPosts ++ [mkNewPost env profile data]

/-! ## Follow button (handleFollowClick in src/components/ProfilePage.tsx) -/

/-- The state touched by the follow button: the profile follower count,
the `isFollowed` React state, and the persisted
`socialvid_followed_<id>` local-storage flag. -/
structure FollowState where
  followers : ℤ
  isFollowed : Bool
  storageFollowedFlag : Bool
deriving DecidableEq

/-- `handleFollowClick` from src/components/ProfilePage.tsx: when not
yet followed, bump the follower count by one via `updateUserProfile`,
set `isFollowed`, and persist the followed flag; otherwise do nothing. -/
def handleFollowClick (s : FollowState) : FollowState :=
  if s.isFollowed then s
  else { followers := s.followers + 1, isFollowed := true, storageFollowedFlag := true }

/-! ## Feed ordering (sortedPosts in src/components/VideoFeed.tsx and
src/unnamed/part_002) -/

/-- The order induced by the comparator `(a, b) => b.timestamp - a.timestamp`
passed to `Array.prototype.sort`: `a` sorts no later than `b` exactly
when the comparator is nonpositive, i.e. `b.timestamp ≤ a.timestamp`. -/
def postTimestampLe (a b : Post) : Bool := decide (b.timestamp ≤ a.timestamp)

/-- `const sortedPosts = [...posts].sort((a, b) => b.timestamp - a.timestamp)`. -/
def sortedPosts (posts : List Post) : List Post :=
  posts.mergeSort postTimestampLe

/-- Result of the render step of `VideoFeed`: the list the cards are
rendered from, and the caller-owned `posts` array after the render.
`sort` mutates the array it is called on, but it is called on the copy
`[...posts]`, so the caller's array is returned unchanged. -/
structure FeedRender where
  rendered : List Post
  postsAfter : List Post
deriving DecidableEq

/-- The `sortedPosts` computation of `VideoFeed`
(src/components/VideoFeed.tsx and src/unnamed/part_002), tracking the
input array alongside the rendered order. -/
def videoFeedRender (posts : List Post) : FeedRender :=
  let copy := posts
  { rendered := sortedPosts copy, postsAfter := posts }

/-! ## State initializers (src/unnamed/part_001, App useState lazy
initializers; src/unnamed/part_000 has the same posts initializer) -/

/-- The posts `useState` initializer: read `socialvid_posts`; a missing
or falsy (empty) value gives `[]`; a `JSON.parse` throw is caught and
gives `[]`; a successful parse is returned as-is. `parse` models
`JSON.parse` restricted to this key. -/
def postsInit (stored : Option String) (parse : String → Except String (List Post)) :
    List Post :=
  match stored with
  | none => []
  | some s =>
      if jsStrTruthy s then
        match parse s with
        | .ok v => v
        | .error _ => []
      else []

/-- The default profile object literal in the profile initializer
(src/unnamed/part_001), with `crypto.randomUUID()` passed in. -/
def defaultUserProfile (freshId : String) : UserProfile where
  id := freshId
  name := "Usuário Gemini"
  bio := "Olá! Sou um entusiasta de vídeos e adoro compartilhar momentos."
  avatarUrl := "https://i.pravatar.cc/150?img=68"
  followers := 0

/-- The profile `useState` initializer: read `socialvid_user_profile`;
a missing or falsy value gives the default profile (built with uuid
`idTry`); a `JSON.parse` throw is caught and gives the default profile
(built with uuid `idCatch`, a second `crypto.randomUUID()` call). -/
def userProfileInit (idTry idCatch : String) (stored : Option String)
    (parse : String → Except String UserProfile) : UserProfile :=
  match stored with
  | none => defaultUserProfile idTry
  | some s =>
      if jsStrTruthy s then
        match parse s with
        | .ok v => v
        | .error _ => defaultUserProfile idCatch
      else defaultUserProfile idTry

/-! ## App state machine with local-storage write-through
(src/unnamed/part_001) -/

/-- The two local-storage entries the App writes:
`socialvid_posts` and `socialvid_user_profile`. -/
structure Storage where
  socialvidPosts : Option String
  socialvidUserProfile : Option String
deriving DecidableEq

/-- The App component state together with browser local storage. -/
structure AppState where
  posts : List Post
  userProfile : UserProfile
  storage : Storage

/-- The state-changing operations the App exposes: creating a post
(`handlePost`) and updating the profile (`updateUserProfile`, used by
the profile page for edits and follows). -/
inductive AppOp where
  | post (env : PostEnv) (data : NewPostData)
  | updateProfile (upd : PartialUserProfile)

/-- Apply one operation to the App state.  `updateUserProfile`
additionally writes the merged profile to local storage synchronously
inside the updater (src/unnamed/part_001). `serializeUser` models
`JSON.stringify` on profiles. -/
def applyOp (serializeUser : UserProfile → String) (op : AppOp) (s : AppState) : AppState :=
  match op with
  | .post env data =>
      { s with posts := handlePost env s.userProfile data s.posts }
  | .updateProfile upd =>
      let newProfile := mergeUserProfile s.userProfile upd
      { s with
        userProfile := newProfile
        storage := { s.storage with socialvidUserProfile := some (serializeUser newProfile) } }

/-- The two `React.useEffect` hooks of the App: after a commit, write
`JSON.stringify(posts)` under `socialvid_posts` and
`JSON.stringify(userProfile)` under `socialvid_user_profile`.
`serializePosts` and `serializeUser` model `JSON.stringify`. -/
def runStorageEffects (serializePosts : List Post → String)
    (serializeUser : UserProfile → String) (s : AppState) : AppState :=
  { s with
    storage :=
      { socialvidPosts := some (serializePosts s.posts)
        socialvidUserProfile := some (serializeUser s.userProfile) } }

/-- One committed App update: apply an operation, then run the
local-storage effects for that commit. -/
def appStep (serializePosts : List Post → String) (serializeUser : UserProfile → String)
    (op : AppOp) (s : AppState) : AppState :=
  runStorageEffects serializePosts serializeUser (applyOp serializeUser op s)

/-- Run the App: the mount commit runs both effects once, then each
operation is applied and committed in turn. -/
def runApp (serializePosts : List Post → String) (serializeUser : UserProfile → String)
    (ops : List AppOp) (s0 : AppState) : AppState :=
  List.foldl (fun s op => appStep serializePosts serializeUser op s)
    (runStorageEffects serializePosts serializeUser s0) ops

/-- The mirroring invariant of claim C1: each storage entry holds
exactly the serialization of the corresponding piece of state. -/
def storageMirrors (serializePosts : List Post → String)
    (serializeUser : UserProfile → String) (s : AppState) : Prop :=
  s.storage.socialvidPosts = some (serializePosts s.posts) ∧
    s.storage.socialvidUserProfile = some (serializeUser s.userProfile)

/-! ## Sample inputs used by witnesses -/

/-- A concrete pre-existing post used to witness claim C6. -/
def samplePostOld : Post where
  id := "id-old"
  videoUrl := "v0"
  thumbnailUrl := "t0"
  caption := "c0"
  timestamp := 1
  likes := 3
  comments := []
  userName := "Bo"
  userAvatar := "av0"
  aiSummary := none

/-- A concrete browser environment used to witness claim C6. -/
def samplePostEnv : PostEnv where
  freshId := "id-new"
  now := 5
  randomLikes := 7

/-- A concrete user profile used to witness claim C6. -/
def sampleProfile : UserProfile where
  id := "u1"
  name := "Ana"
  bio := "bio"
  avatarUrl := "ava"
  followers := 2

/-- Concrete uploaded-post data used to witness claim C6. -/
def sampleNewPostData : NewPostData where
  videoUrl := "v"
  thumbnailUrl := "th"
  caption := "cap"

/-! ## Theorems -/

/-- Characterization of the like state after `n` clicks: even click
counts give the initial state, odd ones give the liked state with one
extra like. -/
theorem likeState_iterate (likes : ℤ) (n : ℕ) :
    handleLikeClick^[n] (initLikeState likes)
      = if n % 2 = 0 then initLikeState likes
        else { isLiked := true, likeCount := likes + 1 } := by
  induction n with
  | zero => simp
  | succ n ih =>
    rw [Function.iterate_succ_apply', ih]
    by_cases h : n % 2 = 0
    · have h2 : ¬((n + 1) % 2 = 0) := by omega
      simp [h, h2, handleLikeClick, initLikeState]
    · have h2 : (n + 1) % 2 = 0 := by omega
      simp [h, h2, handleLikeClick, initLikeState]

/-- Claim C2: for every sequence of like-button clicks on a
`VideoCard`, the displayed like count equals the post's initial likes
plus one exactly when the liked flag is set; two consecutive clicks
restore the state, and the count never drops below the initial likes. -/
theorem claim_C2 (likes : ℤ) (n : ℕ) :
    (handleLikeClick^[n] (initLikeState likes)).likeCount
        = likes + (if (handleLikeClick^[n] (initLikeState likes)).isLiked then 1 else 0)
    ∧ handleLikeClick^[n + 2] (initLikeState likes) = handleLikeClick^[n] (initLikeState likes)
    ∧ likes ≤ (handleLikeClick^[n] (initLikeState likes)).likeCount := by
  have h := likeState_iterate likes n
  have h2 := likeState_iterate likes (n + 2)
  have hmod : (n + 2) % 2 = n % 2 := by omega
  refine ⟨?_, ?_, ?_⟩
  · rw [h]; by_cases hn : n % 2 = 0 <;> simp [hn, initLikeState]
  · rw [h2, h, hmod]
  · rw [h]; by_cases hn : n % 2 = 0 <;> simp [hn, initLikeState]

/-- A `togglePlay` event on an inactive card whose state is not
playing leaves the state untouched, so a fold of such events is the
identity. -/
theorem togglePlay_inactive_foldl (toggles : List Bool) (t : CardState)
    (h : t.isPlaying = false) :
    List.foldl (fun u ok => togglePlay false ok u) t toggles = t := by
  induction toggles with
  | nil => rfl
  | cons ok rest ih =>
    rw [List.foldl_cons, show togglePlay false ok t = t from by simp [togglePlay, h]]
    exact ih

/-- Claim C4: a `VideoCard` whose `isActive` prop is false is never
playing: the inactive branch of the effect pauses the video and clears
`isPlaying`, and any further manual play attempts (`togglePlay`) while
inactive leave the card paused and never start playback. -/
theorem claim_C4 (s : CardState) (playOk : Bool) (toggles : List Bool) :
    (runIsActiveEffect false playOk s).isPlaying = false
    ∧ (runIsActiveEffect false playOk s).videoPlaying = false
    ∧ (List.foldl (fun u ok => togglePlay false ok u)
        (runIsActiveEffect false playOk s) toggles).isPlaying = false
    ∧ (List.foldl (fun u ok => togglePlay false ok u)
        (runIsActiveEffect false playOk s) toggles).videoPlaying = false
    ∧ ∀ b ok : Bool,
        togglePlay false ok { isPlaying := false, showPlayIcon := b, videoPlaying := false }
          = { isPlaying := false, showPlayIcon := b, videoPlaying := false } := by
  have he : runIsActiveEffect false playOk s
      = { isPlaying := false, showPlayIcon := true, videoPlaying := false } := by
    simp [runIsActiveEffect]
  refine ⟨by rw [he], by rw [he], ?_, ?_, ?_⟩
  · rw [togglePlay_inactive_foldl toggles _ (by rw [he]), he]
  · rw [togglePlay_inactive_foldl toggles _ (by rw [he]), he]
  · intro b ok; simp [togglePlay]

/-- Characterization of the follow state after `n` clicks: the first
click follows and increments, every further click is a no-op. -/
theorem followState_iterate (f : ℤ) (g : Bool) (n : ℕ) :
    handleFollowClick^[n] { followers := f, isFollowed := false, storageFollowedFlag := g }
      = if n = 0 then { followers := f, isFollowed := false, storageFollowedFlag := g }
        else { followers := f + 1, isFollowed := true, storageFollowedFlag := true } := by
  induction n with
  | zero => simp
  | succ n ih =>
    rw [Function.iterate_succ_apply', ih]
    by_cases h : n = 0 <;> simp [h, handleFollowClick]

/-- Claim C7: clicking Follow increments the follower count by exactly
one and persists the followed flag when not yet followed, does nothing
when already followed, and over any number of clicks the count rises
by at most one in total (and never falls). -/
theorem claim_C7 (f : ℤ) (g g2 : Bool) (n : ℕ) :
    handleFollowClick { followers := f, isFollowed := false, storageFollowedFlag := g }
        = { followers := f + 1, isFollowed := true, storageFollowedFlag := true }
    ∧ handleFollowClick { followers := f, isFollowed := true, storageFollowedFlag := g2 }
        = { followers := f, isFollowed := true, storageFollowedFlag := g2 }
    ∧ (handleFollowClick^[n]
        { followers := f, isFollowed := false, storageFollowedFlag := g }).followers ≤ f + 1
    ∧ f ≤ (handleFollowClick^[n]
        { followers := f, isFollowed := false, storageFollowedFlag := g }).followers := by
  refine ⟨by simp [handleFollowClick], by simp [handleFollowClick], ?_, ?_⟩ <;>
    rw [followState_iterate] <;> by_cases h : n = 0 <;> simp [h]

/-- Claim C1: the local-storage entries mirror the App state: after
the mount commit and any sequence of App operations, `socialvid_posts`
holds exactly the serialization of the posts list and
`socialvid_user_profile` exactly the serialization of the profile. -/
theorem claim_C1 (sp : List Post → String) (su : UserProfile → String)
    (ops : List AppOp) (s0 : AppState) :
    storageMirrors sp su (runApp sp su ops s0) := by
  induction ops generalizing s0 with
  | nil => exact ⟨rfl, rfl⟩
  | cons op rest ih =>
    have hstep : runApp sp su (op :: rest) s0
        = runApp sp su rest (applyOp su op (runStorageEffects sp su s0)) := rfl
    rw [hstep]
    exact ih _

/-- Claim C3, counterexample: the scroll handler of
src/components/VideoFeed.tsx does not clamp, so with one post,
`clientHeight = 50` and `scrollTop = 100` (a scroll state allowed by
the claim, which only assumes `clientHeight > 0` and `0 ≤ scrollTop`)
the computed active index is `2`, outside `[0, posts.length - 1] = [0, 0]`. -/
theorem claim_C3_counterexample :
    0 < (1 : ℕ) ∧ (0 : ℚ) < 50 ∧ (0 : ℚ) ≤ 100
    ∧ newActiveIndexFeedTsx 100 50 = 2
    ∧ ¬ newActiveIndexFeedTsx 100 50 ≤ ((1 : ℕ) : ℤ) - 1 := by
  have h : newActiveIndexFeedTsx 100 50 = 2 := by
    rw [newActiveIndexFeedTsx, jsRound, Int.floor_eq_iff] ; norm_num
  refine ⟨by norm_num, by norm_num, by norm_num, h, ?_⟩
  rw [h]; norm_num

/-- Claim C3, amended: the clamped handler of src/unnamed/part_002
always yields an index in `[0, posts.length - 1]` for a non-empty
posts list; the unclamped handler of src/components/VideoFeed.tsx
yields an index in that range only under the additional assumption
that the scroll offset does not exceed `(posts.length - 1) *
clientHeight` (the maximal offset of a feed that is `posts.length`
screens tall), and can exceed the range otherwise. -/
theorem claim_C3_amended (scrollTop clientHeight : ℚ) (numPosts : ℕ)
    (hn : 0 < numPosts) (hh : 0 < clientHeight) (hs : 0 ≤ scrollTop) :
    (0 ≤ clampedActiveIndex scrollTop clientHeight numPosts
      ∧ clampedActiveIndex scrollTop clientHeight numPosts ≤ (numPosts : ℤ) - 1)
    ∧ (scrollTop ≤ ((numPosts : ℚ) - 1) * clientHeight →
        0 ≤ newActiveIndexFeedTsx scrollTop clientHeight
        ∧ newActiveIndexFeedTsx scrollTop clientHeight ≤ (numPosts : ℤ) - 1) := by
  constructor
  · refine ⟨le_max_left 0 _, max_le (by omega) (min_le_right _ _)⟩
  · intro hbound
    have hdiv : scrollTop / clientHeight ≤ (numPosts : ℚ) - 1 := by
      rw [div_le_iff₀ hh]; exact hbound
    have hdiv0 : 0 ≤ scrollTop / clientHeight := div_nonneg hs hh.le
    constructor
    · rw [newActiveIndexFeedTsx, jsRound, Int.le_floor]
      push_cast
      linarith
    · have hlt : newActiveIndexFeedTsx scrollTop clientHeight < (numPosts : ℤ) := by
        rw [newActiveIndexFeedTsx, jsRound, Int.floor_lt]
        push_cast
        linarith
      omega

/-- Witness for the amended claim C3 at `scrollTop = 120`,
`clientHeight = 50`, three posts. -/
theorem claim_C3_witness :
    (0 ≤ clampedActiveIndex 120 50 3 ∧ clampedActiveIndex 120 50 3 ≤ ((3 : ℕ) : ℤ) - 1)
    ∧ ((120 : ℚ) ≤ (((3 : ℕ) : ℚ) - 1) * 50 →
        0 ≤ newActiveIndexFeedTsx 120 50
        ∧ newActiveIndexFeedTsx 120 50 ≤ ((3 : ℕ) : ℤ) - 1) :=
  claim_C3_amended 120 50 3 (by norm_num) (by norm_num) (by norm_num)

/-- Claim C5: each Gemini proxy function returns the trimmed response
text when it is non-empty, returns null when the response text is
empty after trimming or absent, throws `GeminiApiKeyError` exactly
when the caught error's message contains one of the two API-key
phrases, and re-throws every other error unchanged. -/
theorem claim_C5 (t : String) (m : Option String) :
    generateVideoTitle (.success (some t))
        = .ok (if t.trim = "" then none else some t.trim)
    ∧ generateVideoTitle (.success none) = .ok none
    ∧ generateVideoTitle (.failure m)
        = (if isApiKeyErrorMessage m then .error (.apiKeyError apiKeyErrorProMessage)
           else .error (.other m))
    ∧ generateVideoCaption (.success (some t))
        = .ok (if t.trim = "" then none else some t.trim)
    ∧ generateVideoCaption (.success none) = .ok none
    ∧ generateVideoCaption (.failure m)
        = (if isApiKeyErrorMessage m then .error (.apiKeyError apiKeyErrorProMessage)
           else .error (.other m))
    ∧ generateVideoSummary (.success (some t))
        = .ok (if t.trim = "" then none else some t.trim)
    ∧ generateVideoSummary (.success none) = .ok none
    ∧ generateVideoSummary (.failure m)
        = (if isApiKeyErrorMessage m then .error (.apiKeyError apiKeyErrorFlashMessage)
           else .error (.other m)) := by
  have hs : ∀ k, geminiProxy k (.success (some t))
      = .ok (if t.trim = "" then none else some t.trim) := by
    intro k
    by_cases h : t.trim = "" <;> simp [geminiProxy, jsStrTruthy, h]
  exact ⟨hs _, rfl, rfl, hs _, rfl, rfl, hs _, rfl, rfl⟩

/-- Claim C6: `handlePost` appends exactly one new post — with the
freshly generated id, the current time as timestamp, empty comments,
and the current user profile name and avatar — leaving every existing
post unchanged, so the length grows by exactly one; and when the
generated id is new, the appended post's id collides with no existing
post. -/
theorem claim_C6 (env : PostEnv) (profile : UserProfile) (data : NewPostData)
    (prevPosts : List Post) :
    (handlePost env profile data prevPosts).length = prevPosts.length + 1
    ∧ (handlePost env profile data prevPosts).take prevPosts.length = prevPosts
    ∧ (handlePost env profile data prevPosts).getLast? = some (mkNewPost env profile data)
    ∧ (mkNewPost env profile data).id = env.freshId
    ∧ (mkNewPost env profile data).timestamp = env.now
    ∧ (mkNewPost env profile data).comments = []
    ∧ (mkNewPost env profile data).userName = profile.name
    ∧ (mkNewPost env profile data).userAvatar = profile.avatarUrl
    ∧ (env.freshId ∉ prevPosts.map Post.id →
        ∀ p ∈ prevPosts, (mkNewPost env profile data).id ≠ p.id) := by
  refine ⟨by simp [handlePost], ?_, ?_, rfl, rfl, rfl, rfl, rfl, ?_⟩
  · rw [handlePost, List.take_left]
  · rw [handlePost, List.getLast?_concat]
  · intro h p hp heq
    exact h ((show (mkNewPost env profile data).id = env.freshId from rfl) ▸ heq ▸
      List.mem_map_of_mem Post.id hp)

/-- Witness for claim C6: posting over a one-element feed with a fresh
id yields a two-element feed whose new post's id differs from the old
one's. -/
theorem claim_C6_witness :
    (handlePost samplePostEnv sampleProfile sampleNewPostData [samplePostOld]).length = 2
    ∧ ∀ p ∈ [samplePostOld],
        (mkNewPost samplePostEnv sampleProfile sampleNewPostData).id ≠ p.id := by
  have h := claim_C6 samplePostEnv sampleProfile sampleNewPostData [samplePostOld]
  exact ⟨h.1, h.2.2.2.2.2.2.2.2 (by decide)⟩

/-- Claim C8: `VideoFeed` renders the posts sorted by timestamp in
descending order (a permutation of the input, pairwise non-increasing
timestamps), and the sort runs on the copy `[...posts]`, so the input
array is unchanged after the render. -/
theorem claim_C8 (posts : List Post) :
    (videoFeedRender posts).rendered.Perm posts
    ∧ (videoFeedRender posts).rendered.Pairwise (fun a b => b.timestamp ≤ a.timestamp)
    ∧ (videoFeedRender posts).postsAfter = posts := by
  refine ⟨List.mergeSort_perm posts postTimestampLe, ?_, rfl⟩
  have htrans : ∀ a b c : Post, postTimestampLe a b = true → postTimestampLe b c = true →
      postTimestampLe a c = true := by
    intro a b c hab hbc
    simp only [postTimestampLe, decide_eq_true_eq] at *
    omega
  have htotal : ∀ a b : Post, (postTimestampLe a b || postTimestampLe b a) = true := by
    intro a b
    simp only [postTimestampLe, Bool.or_eq_true, decide_eq_true_eq]
    omega
  have h := List.sorted_mergeSort htrans htotal posts
  exact h.imp fun hab => by simpa [postTimestampLe] using hab

/-- Claim C9: `updateUserProfile` merges a partial update into the
current profile: every field named in the partial update takes its new
value, and every field not named keeps its previous value. -/
theorem claim_C9 (prev : UserProfile) (upd : PartialUserProfile) :
    (∀ v, upd.id = some v → (mergeUserProfile prev upd).id = v)
    ∧ (upd.id = none → (mergeUserProfile prev upd).id = prev.id)
    ∧ (∀ v, upd.name = some v → (mergeUserProfile prev upd).name = v)
    ∧ (upd.name = none → (mergeUserProfile prev upd).name = prev.name)
    ∧ (∀ v, upd.bio = some v → (mergeUserProfile prev upd).bio = v)
    ∧ (upd.bio = none → (mergeUserProfile prev upd).bio = prev.bio)
    ∧ (∀ v, upd.avatarUrl = some v → (mergeUserProfile prev upd).avatarUrl = v)
    ∧ (upd.avatarUrl = none → (mergeUserProfile prev upd).avatarUrl = prev.avatarUrl)
    ∧ (∀ v, upd.followers = some v → (mergeUserProfile prev upd).followers = v)
    ∧ (upd.followers = none → (mergeUserProfile prev upd).followers = prev.followers) := by
  refine ⟨?_, ?_, ?_, ?_, ?_, ?_, ?_, ?_, ?_, ?_⟩ <;>
    intros <;> simp [mergeUserProfile, *]

/-- Witness for claim C9: merging an update that names only the name
and follower count changes exactly those fields. -/
theorem claim_C9_witness :
    (mergeUserProfile sampleProfile
        { id := none, name := some "New", bio := none, avatarUrl := none,
          followers := some 9 }).name = "New"
    ∧ (mergeUserProfile sampleProfile
        { id := none, name := some "New", bio := none, avatarUrl := none,
          followers := some 9 }).bio = sampleProfile.bio
    ∧ (mergeUserProfile sampleProfile
        { id := none, name := some "New", bio := none, avatarUrl := none,
          followers := some 9 }).followers = 9 := by
  have h := claim_C9 sampleProfile
    { id := none, name := some "New", bio := none, avatarUrl := none, followers := some 9 }
  exact ⟨h.2.2.1 "New" rfl, h.2.2.2.2.2.1 rfl, h.2.2.2.2.2.2.2.2.1 9 rfl⟩

/-- Claim C10: on startup a missing or unparsable `socialvid_posts`
entry initializes the posts to `[]`, a missing or unparsable
`socialvid_user_profile` entry initializes the profile to the default
(name "Usuário Gemini", 0 followers), and the posts initializer is
total: it always returns either `[]` or a successfully parsed value,
so corrupted storage never escapes initialization as an exception. -/
theorem claim_C10 (parseP : String → Except String (List Post))
    (parseU : String → Except String UserProfile)
    (stored : Option String) (s e idTry idCatch : String) :
    postsInit none parseP = []
    ∧ (parseP s = .error e → postsInit (some s) parseP = [])
    ∧ (userProfileInit idTry idCatch none parseU).name = "Usuário Gemini"
    ∧ (userProfileInit idTry idCatch none parseU).followers = 0
    ∧ (parseU s = .error e →
        (userProfileInit idTry idCatch (some s) parseU).name = "Usuário Gemini"
        ∧ (userProfileInit idTry idCatch (some s) parseU).followers = 0)
    ∧ (postsInit stored parseP = []
        ∨ ∃ s2 v, stored = some s2 ∧ parseP s2 = .ok v ∧ postsInit stored parseP = v) := by
  refine ⟨rfl, ?_, rfl, rfl, ?_, ?_⟩
  · intro h
    by_cases hs : jsStrTruthy s <;> simp [postsInit, hs, h]
  · intro h
    by_cases hs : jsStrTruthy s <;>
      simp [userProfileInit, hs, h, defaultUserProfile]
  · match stored with
    | none => exact Or.inl rfl
    | some s2 =>
      by_cases hs : jsStrTruthy s2
      · match hp : parseP s2 with
        | .ok v => exact Or.inr ⟨s2, v, rfl, hp, by simp [postsInit, hs, hp]⟩
        | .error e2 => exact Or.inl (by simp [postsInit, hs, hp])
      · exact Or.inl (by simp [postsInit, hs])

/-- Witness for claim C10: with a parser that throws on the stored
string, the posts initialize to `[]` and the profile to the default
with 0 followers and the default name. -/
theorem claim_C10_witness :
    postsInit (some "corrupt") (fun _ => Except.error "bad") = []
    ∧ (userProfileInit "i1" "i2" (some "corrupt")
        (fun _ => Except.error "bad")).name = "Usuário Gemini"
    ∧ (userProfileInit "i1" "i2" (some "corrupt")
        (fun _ => Except.error "bad")).followers = 0 := by
  have h := claim_C10 (fun _ => Except.error "bad") (fun _ => Except.error "bad")
    (some "corrupt") "corrupt" "bad" "i1" "i2"
  exact ⟨h.2.1 rfl, (h.2.2.2.2.1 rfl).1, (h.2.2.2.2.1 rfl).2⟩

end SocialVid
